import Mathlib

/-!
Shallow embedding of the Graham value stock screener (`src/app.py`).

Numbers are modelled as exact rationals (`ℚ`): every quantity the script
handles is a finite decimal or a quotient of such, and no criterion depends
on float rounding.  `np.nan` values (means of empty arrays, guarded
valuations) are modelled as `Option.none`: the script only ever uses them in
`x > 0` comparisons, which are `False` for NaN exactly as the `none` branch
below is.  Missing dictionary keys looked up with `info.get(key, 0)` are
modelled either as a plain field already holding the default `0` or, where a
claim depends on presence, as an `Option` with `.getD 0` at the use site.
Division by zero in `ℚ` yields `0`; the one place the script can divide by
zero (the bond-yield discount) is discussed at `grahamValue`.
-/

namespace StockScreener

/-- Per-company snapshot of the fields `fetch_financials` reads from the
market-data provider: the `info` dictionary entries, the presence of a
"Net Income" row (and its values) in the income statement, and the two
balance-sheet aggregates computed before the EPS block. -/
structure FinancialInfo where
  sharesOutstanding : ℚ
  netIncomeSeries : Option (List ℚ)
  bookValue : ℚ
  currentRatio : ℚ
  totalRevenue : ℚ
  priceToBook : ℚ
  currentPrice : Option ℚ
  dividendRate : ℚ
  estCurrentAssets : ℚ
  estTotalLiabilities : ℚ
deriving DecidableEq

/-- EPS series from `fetch_financials`: when the income statement has a
"Net Income" row and `shares_outstanding` is truthy (nonzero), each net
income is divided by the share count, with the comprehension guard
`if shares_outstanding > 0` dropping every element for non-positive counts;
otherwise the list stays empty.  The trailing `isinstance` filter keeps
every numeric entry and is the identity here. -/
def epsValues (info : FinancialInfo) : List ℚ :=
  match info.netIncomeSeries with
  | some netIncomes =>
    if info.sharesOutstanding ≠ 0 then
      if 0 < info.sharesOutstanding then
        netIncomes.map fun ni => ni / info.sharesOutstanding
      else []
    else []
  | none => []

/-- Arithmetic mean as `np.mean`: the mean of an empty array is NaN,
modelled as `none`. -/
def npMean (xs : List ℚ) : Option ℚ :=
  if xs.isEmpty then none else some (xs.sum / (xs.length : ℚ))

/-- Python slice `xs[-n:]`: the last `min n xs.length` elements. -/
def lastN (n : Nat) (xs : List ℚ) : List ℚ :=
  xs.drop (xs.length - n)

/-- `eps_7yr_avg = np.mean(eps_values[-7:]) if len(eps_values) >= 3 else np.mean(eps_values)`. -/
def eps7yrAvg (eps : List ℚ) : Option ℚ :=
  if 3 ≤ eps.length then npMean (lastN 7 eps) else npMean eps

/-- `eps_5yr_avg = np.mean(eps_values[-5:]) if len(eps_values) >= 3 else np.mean(eps_values)`. -/
def eps5yrAvg (eps : List ℚ) : Option ℚ :=
  if 3 ≤ eps.length then npMean (lastN 5 eps) else npMean eps

/-- Modelled from the spec: the 3-year average EPS that the spec's criterion 6
row prescribes ("computed the same way as eps5yr/7yr but windowed to 3").
No such computation exists in `src/app.py`; this definition exists only to
compare the spec's reading of criterion 6 with the code's. -/
def eps3yrAvgSpec (eps : List ℚ) : Option ℚ :=
  if 3 ≤ eps.length then npMean (lastN 3 eps) else npMean eps

/-- The positive-EPS subsequence `[eps for eps in eps_values if eps > 0]`. -/
def positiveEps (eps : List ℚ) : List ℚ :=
  eps.filter fun e => decide (0 < e)

/-- `eps_growth` from `fetch_financials`: `0` unless the series has at least
two entries and its positive subsequence at least two, in which case
`(latest - oldest) / oldest` over the positive subsequence (Python `[0]` and
`[-1]` are head and last), with a redundant `oldest > 0` guard. -/
def epsGrowth (eps : List ℚ) : ℚ :=
  if 2 ≤ eps.length then
    if 2 ≤ (positiveEps eps).length then
      if 0 < (positiveEps eps).headD 0 then
        ((positiveEps eps).getLastD 0 - (positiveEps eps).headD 0) /
          (positiveEps eps).headD 0
      else 0
    else 0
  else 0

/-- `fetch_aaa_yield`: the last available close of the AAA-yield ticker, or
the literal `4.4` when the fetch raises or the series is empty (modelled as
`none`).  A successfully fetched value is returned unchanged, whatever it is. -/
def fetchAaaYield (latestClose : Option ℚ) : ℚ :=
  latestClose.getD (4.4 : ℚ)

/-- `graham_value = eps_5yr_avg * (8.5 + 2 * eps_growth) * (4.4 / current_bond_yield)
if eps_5yr_avg > 0 else np.nan`.  A NaN five-year average (`none`) fails the
guard.  The division `4.4 / current_bond_yield` is unguarded in the script;
in this `ℚ` model a zero divisor yields `0` where the float code yields an
infinite value — either way, not the `4.4 / 4.4 = 1` ratio a default would
give. -/
def grahamValue (eps5Avg : Option ℚ) (growth currentBondYield : ℚ) : Option ℚ :=
  match eps5Avg with
  | some e =>
    if 0 < e then some (e * ((8.5 : ℚ) + 2 * growth) * ((4.4 : ℚ) / currentBondYield))
    else none
  | none => none

/-- `graham_number = np.sqrt(22.5 * eps_7yr_avg * bvps) if eps_7yr_avg > 0 and
bvps > 0 else np.nan`, with NaN modelled as `none` and the square root taken
in `ℝ`. -/
noncomputable def grahamNumber (eps7Avg : Option ℚ) (bvps : ℚ) : Option ℝ :=
  match eps7Avg with
  | some e =>
    if 0 < e ∧ 0 < bvps then some (Real.sqrt ((22.5 : ℝ) * (e : ℝ) * (bvps : ℝ)))
    else none
  | none => none

/-- `price_ceiling = 15 * eps_5yr_avg if eps_5yr_avg > 0 else 0` (NaN fails
the guard). -/
def priceCeiling (eps5Avg : Option ℚ) : ℚ :=
  match eps5Avg with
  | some e => if 0 < e then 15 * e else 0
  | none => 0

/-- Criterion "Revenue > $100M". -/
def revenueCriterion (info : FinancialInfo) : Bool :=
  decide (100000000 < info.totalRevenue)

/-- Criterion "Current Ratio > 2". -/
def currentRatioCriterion (info : FinancialInfo) : Bool :=
  decide (2 < info.currentRatio)

/-- Criterion "Estimated Current Assets - Liabilities > 0". -/
def workingCapitalCriterion (info : FinancialInfo) : Bool :=
  decide (info.estTotalLiabilities < info.estCurrentAssets)

/-- Criterion "Pays Dividends". -/
def dividendCriterion (info : FinancialInfo) : Bool :=
  decide (0 < info.dividendRate)

/-- Criterion "Positive EPS for 5 Years":
`sum(eps > 0 for eps in eps_values[-5:]) >= 4`. -/
def positiveEps5Criterion (info : FinancialInfo) : Bool :=
  decide (4 ≤ (lastN 5 (epsValues info)).countP fun e => decide (0 < e))

/-- Criterion "Price ≤ 15 x 3Y Avg EPS": `current_price <= price_ceiling`,
where `current_price = info.get("currentPrice", 0)` and the ceiling is built
from the 5-year average. -/
def priceCeilingCriterion (info : FinancialInfo) : Bool :=
  decide (info.currentPrice.getD 0 ≤ priceCeiling (eps5yrAvg (epsValues info)))

/-- Modelled from the spec: the criterion 6 the spec's table row states —
"price present AND eps3yrAverage > 0 AND price ≤ 15 × eps3yrAverage".  It is
defined only to be compared against `priceCeilingCriterion`, the code's
criterion 6. -/
def priceCeilingCriterionSpec (info : FinancialInfo) : Bool :=
  match info.currentPrice, eps3yrAvgSpec (epsValues info) with
  | some p, some e3 => decide (0 < e3) && decide (p ≤ 15 * e3)
  | _, _ => false

/-- Criterion "P/B < 1.5". -/
def pbCriterion (info : FinancialInfo) : Bool :=
  decide (info.priceToBook < (1.5 : ℚ))

/-- The `criteria` dictionary's seven values, in insertion order. -/
def criteria (info : FinancialInfo) : List Bool :=
  [revenueCriterion info, currentRatioCriterion info, workingCapitalCriterion info,
   dividendCriterion info, positiveEps5Criterion info, priceCeilingCriterion info,
   pbCriterion info]

/-- `passed = sum(criteria.values())`. -/
def passedCount (info : FinancialInfo) : Nat :=
  (criteria info).countP id

/-- The dictionary `fetch_financials` returns for a ticker, minus the
`graham_number` entry (a real number that no ranking claim reads; it is
covered by the standalone `grahamNumber`). -/
structure ScreenResult where
  ticker : String
  passedCount : Nat
  epsGrowth : ℚ
  bvps : ℚ
  currentPrice : ℚ
  grahamValue : Option ℚ
  criteriaFlags : List Bool
deriving DecidableEq

/-- The successful body of `fetch_financials`, assembling the result row. -/
def mkScreenResult (ticker : String) (info : FinancialInfo) (currentBondYield : ℚ) :
    ScreenResult :=
  { ticker := ticker
    passedCount := passedCount info
    epsGrowth := epsGrowth (epsValues info)
    bvps := info.bookValue
    currentPrice := info.currentPrice.getD 0
    grahamValue := grahamValue (eps5yrAvg (epsValues info)) (epsGrowth (epsValues info))
      currentBondYield
    criteriaFlags := criteria info }

/-- Ascending key order on position-tagged rows used to model the argsort
step of `df.sort_values("Passed Count", ascending=False)`.  pandas
(`nargsort` in `pandas/core/sorting.py`) first reverses the value and index
arrays, then runs an ascending numpy `argsort` on the reversed values: a
stable argsort visits equal keys in the order of the array it is given,
which for the pre-reversed array is descending original position.  The
lexicographic order on (passed count ascending, original position
descending) is therefore exactly the order a stable ascending argsort of
the pre-reversed column produces; on tagged rows, whose tags are all
distinct, sorting by this total order determines the result without
appeal to the sorting algorithm's own stability.  numpy's default
`quicksort` leaves the order of equal keys unspecified in general, but on
the short arrays it falls back to its stable insertion sort, which this
model fixes. -/
def keyLe (a b : Nat × ScreenResult) : Prop :=
  a.2.passedCount < b.2.passedCount ∨
    (a.2.passedCount = b.2.passedCount ∧ b.1 ≤ a.1)

instance : DecidableRel keyLe := fun a b => by
  unfold keyLe
  exact inferInstance

instance : IsTotal (Nat × ScreenResult) keyLe := by
  constructor
  intro a b
  unfold keyLe
  omega

instance : IsTrans (Nat × ScreenResult) keyLe := by
  constructor
  intro a b c
  unfold keyLe
  omega

/-- `df_sorted = df.sort_values("Passed Count", ascending=False)`: for
`ascending=False`, pandas `nargsort` reverses the value and index arrays,
computes the ascending argsort of the reversed values
(`indexer = non_nan_idx[non_nans.argsort(kind=kind)]` after
`non_nans = non_nans[::-1]; non_nan_idx = non_nan_idx[::-1]`), and then
reverses the resulting indexer (`indexer = indexer[::-1]`).  The model tags
each row with its position, pre-reverses the tagged list, sorts it by
`keyLe` — the order a stable ascending argsort induces on the pre-reversed
column — reverses the result, and drops the tags. -/
def rankedTable (rows : List ScreenResult) : List ScreenResult :=
  ((List.insertionSort keyLe rows.enum.reverse).reverse).map Prod.snd

/-- One iteration of the screening loop: `fetch_financials` returns `None`
when any exception escapes the fetch or the computation (modelled by the
`none` input); otherwise the result row. -/
def fetchRow (currentBondYield : ℚ) (fetched : String × Option FinancialInfo) :
    Option ScreenResult :=
  fetched.2.map fun info => mkScreenResult fetched.1 info currentBondYield

/-- The "Run Screening" handler: collect the non-`None` rows in input order
(`if data: results.append(data)`) and rank them.  When no row survives the
code shows a warning instead of a table, i.e. the table stays empty. -/
def runScreening (fetches : List (String × Option FinancialInfo))
    (currentBondYield : ℚ) : List ScreenResult :=
  rankedTable (fetches.filterMap (fetchRow currentBondYield))

/-! ### Concrete records used by counterexamples and witnesses -/

/-- Record with every optional field absent and every numeric field `0`. -/
def blankInfo : FinancialInfo :=
  { sharesOutstanding := 0, netIncomeSeries := none, bookValue := 0, currentRatio := 0,
    totalRevenue := 0, priceToBook := 0, currentPrice := none, dividendRate := 0,
    estCurrentAssets := 0, estTotalLiabilities := 0 }

/-- Record whose 3-year EPS average (`10`) and 5-year EPS average (`2`)
make the spec's criterion 6 and the code's criterion 6 disagree at price 100. -/
def rWindow : FinancialInfo :=
  { blankInfo with
    netIncomeSeries := some [-10, -10, 10, 10, 10]
    sharesOutstanding := 1
    currentPrice := some 100 }

/-- Record with no price and uniformly negative earnings. -/
def rNoData : FinancialInfo :=
  { blankInfo with
    netIncomeSeries := some [-1, -1, -1]
    sharesOutstanding := 1 }

/-- Record with shares outstanding but no net-income row. -/
def rMissingIncome : FinancialInfo :=
  { blankInfo with sharesOutstanding := 5 }

/-- Record with a net-income series but zero shares outstanding. -/
def rZeroShares : FinancialInfo :=
  { blankInfo with netIncomeSeries := some [10, 20] }

/-- Record with no price and negative earnings, for the silent criterion 6 pass. -/
def rSilentPass : FinancialInfo :=
  { blankInfo with
    netIncomeSeries := some [-1, -1, -1]
    sharesOutstanding := 1 }

/-- Record with revenue 150,000,000. -/
def rRev150 : FinancialInfo :=
  { blankInfo with totalRevenue := 150000000 }

/-- Record with revenue exactly 100,000,000. -/
def rRev100 : FinancialInfo :=
  { blankInfo with totalRevenue := 100000000 }

/-! ### Shared helper lemmas -/

/-- The ranked table is a permutation of its input rows. -/
theorem rankedTable_perm (rows : List ScreenResult) : (rankedTable rows).Perm rows := by
  unfold rankedTable
  have h1 : (List.insertionSort keyLe rows.enum.reverse).reverse.Perm rows.enum :=
    ((List.reverse_perm _).trans (List.perm_insertionSort _ _)).trans
      (List.reverse_perm _)
  have h2 := h1.map Prod.snd
  rwa [List.enum, List.enumFrom_map_snd] at h2

/-- Each dropped fetch removes exactly one row before ranking. -/
theorem length_filterMap_fetchRow (y : ℚ)
    (fetches : List (String × Option FinancialInfo)) :
    (fetches.filterMap (fetchRow y)).length =
      fetches.countP (fun tf => tf.2.isSome) := by
  induction fetches with
  | nil => rfl
  | cons head tail ih =>
    rcases head with ⟨t, _ | info⟩ <;>
      simp [fetchRow, List.filterMap_cons, List.countP_cons, ih]

/-! ### Claim theorems -/

/-- Claim C10: criterion 1 ("Revenue > $100M") is true exactly when
`totalRevenue` is strictly greater than 100,000,000; revenue 150,000,000
passes and exactly 100,000,000 fails. -/
theorem revenueCriterion_spec (info : FinancialInfo) :
    (revenueCriterion info = true ↔ 100000000 < info.totalRevenue) ∧
    (info.totalRevenue = 150000000 → revenueCriterion info = true) ∧
    (info.totalRevenue = 100000000 → revenueCriterion info = false) := by
  refine ⟨by simp [revenueCriterion], ?_, ?_⟩
  · intro h
    norm_num [revenueCriterion, h]
  · intro h
    norm_num [revenueCriterion, h]

/-- Witness for C10 at revenue 150,000,000 and exactly 100,000,000. -/
theorem revenueCriterion_spec_witness :
    revenueCriterion rRev150 = true ∧ revenueCriterion rRev100 = false :=
  ⟨(revenueCriterion_spec rRev150).2.1 rfl, (revenueCriterion_spec rRev100).2.2 rfl⟩

/-- Claim C9: a record with no price (the lookup defaults to 0) and a 5-year
EPS average that is not strictly positive (so the price ceiling is 0) makes
criterion 6 ("Price ≤ 15 x 3Y Avg EPS") true, since 0 ≤ 0. -/
theorem criterion6_passes_without_data (info : FinancialInfo)
    (hp : info.currentPrice = none)
    (h5 : ∀ e, eps5yrAvg (epsValues info) = some e → e ≤ 0) :
    priceCeilingCriterion info = true := by
  have hceil : priceCeiling (eps5yrAvg (epsValues info)) = 0 := by
    cases h : eps5yrAvg (epsValues info) with
    | none => simp [priceCeiling]
    | some e =>
      have he := h5 e h
      simp [priceCeiling, not_lt.mpr he]
  simp [priceCeilingCriterion, hp, hceil, Option.getD]

/-- Witness for C9: a priceless record with EPS series `[-1, -1, -1]`
passes criterion 6. -/
theorem criterion6_passes_without_data_witness :
    priceCeilingCriterion rSilentPass = true := by
  refine criterion6_passes_without_data rSilentPass rfl ?_
  intro e he
  have h : eps5yrAvg (epsValues rSilentPass) = some (-1) := by
    norm_num [eps5yrAvg, epsValues, npMean, lastN, rSilentPass, blankInfo]
  rw [h] at he
  injection he with he2
  rw [← he2]
  norm_num

/-- Claim C7: passedCount is the number of true values among the seven
criteria of the `criteria` dictionary, hence at most 7, and is unchanged by
the bond yield (the only input the valuation-vs-price quantities depend on
beyond the record itself), so no valuation-vs-price check contributes. -/
theorem passedCount_spec (t : String) (info : FinancialInfo) (y : ℚ) :
    passedCount info = (criteria info).countP id ∧
    (criteria info).length = 7 ∧
    passedCount info ≤ 7 ∧
    (mkScreenResult t info y).passedCount = passedCount info := by
  refine ⟨rfl, rfl, ?_, rfl⟩
  calc passedCount info = (criteria info).countP id := rfl
    _ ≤ (criteria info).length := List.countP_le_length id
    _ = 7 := rfl

/-- Claim C6: the EPS growth rate is 0 when fewer than two strictly positive
entries exist, and otherwise is (latest positive − oldest positive) / oldest
positive over the chronological positive subsequence; `[1, -2, 3]` gives 2. -/
theorem epsGrowth_spec (eps : List ℚ) :
    ((positiveEps eps).length < 2 → epsGrowth eps = 0) ∧
    (2 ≤ (positiveEps eps).length →
      epsGrowth eps =
        ((positiveEps eps).getLastD 0 - (positiveEps eps).headD 0) /
          (positiveEps eps).headD 0) ∧
    epsGrowth [1, -2, 3] = 2 := by
  refine ⟨?_, ?_, ?_⟩
  · intro h
    rcases Nat.lt_or_ge eps.length 2 with ho | ho
    · simp [epsGrowth, Nat.not_le.mpr ho]
    · simp [epsGrowth, ho, Nat.not_le.mpr h]
  · intro h
    have ho : 2 ≤ eps.length := le_trans (by simpa [positiveEps] using h)
      (List.length_filter_le _ eps)
    have hpos : 0 < (positiveEps eps).headD 0 := by
      cases hv : positiveEps eps with
      | nil => rw [hv] at h; simp at h
      | cons a tail =>
        have ha : a ∈ positiveEps eps := by
          rw [hv]
          exact List.mem_cons_self a tail
        have ha2 : 0 < a := by
          have h3 := (List.mem_filter.mp
            (show a ∈ eps.filter (fun e => decide (0 < e)) from ha)).2
          simpa using h3
        simp [hv, ha2]
    unfold epsGrowth
    rw [if_pos ho, if_pos h, if_pos hpos]
  · norm_num [epsGrowth, positiveEps, List.filter]

/-- Witness for C6 at the series `[1, -2, 3]`. -/
theorem epsGrowth_spec_witness : epsGrowth [(1 : ℚ), -2, 3] = 2 := by
  have h := (epsGrowth_spec [(1 : ℚ), -2, 3]).2.1
    (by norm_num [positiveEps, List.filter])
  rw [h]
  norm_num [positiveEps, List.filter]

/-- Claim C5: the Graham number is sqrt(22.5 × eps7yrAverage × bookValuePerShare)
when both factors are strictly positive, absent when either is ≤ 0 (or when
the average itself is NaN), and equals sqrt(2250) at eps7yrAverage 4 and
book value 25. -/
theorem grahamNumber_spec (e b : ℚ) :
    (0 < e → 0 < b → grahamNumber (some e) b =
      some (Real.sqrt ((22.5 : ℝ) * (e : ℝ) * (b : ℝ)))) ∧
    (e ≤ 0 ∨ b ≤ 0 → grahamNumber (some e) b = none) ∧
    grahamNumber none b = none ∧
    grahamNumber (some 4) 25 = some (Real.sqrt 2250) := by
  refine ⟨?_, ?_, rfl, ?_⟩
  · intro h1 h2
    simp [grahamNumber, h1, h2]
  · intro h
    have hn : ¬(0 < e ∧ 0 < b) := by
      rintro ⟨he, hb⟩
      rcases h with h | h <;> linarith
    simp [grahamNumber, hn]
  · have h4 : (0 : ℚ) < 4 := by norm_num
    have h25 : (0 : ℚ) < 25 := by norm_num
    simp only [grahamNumber, h4, h25, and_self, if_true]
    norm_num

/-- Witness for C5 at eps7yrAverage 4 and book value 25. -/
theorem grahamNumber_spec_witness :
    grahamNumber (some 4) 25 =
      some (Real.sqrt ((22.5 : ℝ) * ((4 : ℚ) : ℝ) * ((25 : ℚ) : ℝ))) :=
  (grahamNumber_spec 4 25).1 (by norm_num) (by norm_num)

/-- Claim C3 counterexample: a bond yield that is fetched successfully as 0
is not treated as the default 4.4 — `fetch_aaa_yield` returns it unchanged,
and the Graham value computed with it differs from the one computed with the
default, so the claimed zero-yield guard does not exist. -/
theorem bondYield_guard_counterexample :
    fetchAaaYield (some 0) = 0 ∧
    fetchAaaYield (some 0) ≠ (4.4 : ℚ) ∧
    grahamValue (some 1) 0 (fetchAaaYield (some 0)) = some 0 ∧
    grahamValue (some 1) 0 (4.4 : ℚ) = some (8.5 : ℚ) := by
  refine ⟨rfl, by norm_num [fetchAaaYield], ?_, ?_⟩
  · norm_num [grahamValue, fetchAaaYield]
  · norm_num [grahamValue]

/-- Claim C3 amended: the Graham value is eps5yrAverage × (8.5 + 2 × growth)
× (4.4 / bondYield) when eps5yrAverage > 0 and absent otherwise; only a
failed or empty yield fetch falls back to the default 4.4 (ratio 1.0), while
a successfully fetched yield — zero included — is used as-is. -/
theorem grahamValue_amended (e g y : ℚ) :
    (0 < e → grahamValue (some e) g y =
      some (e * ((8.5 : ℚ) + 2 * g) * ((4.4 : ℚ) / y))) ∧
    (e ≤ 0 → grahamValue (some e) g y = none) ∧
    grahamValue none g y = none ∧
    fetchAaaYield none = (4.4 : ℚ) ∧
    fetchAaaYield (some y) = y := by
  refine ⟨?_, ?_, rfl, rfl, rfl⟩
  · intro h
    simp [grahamValue, h]
  · intro h
    simp [grahamValue, not_lt.mpr h]

/-- Witness for the amended C3 at eps5yrAverage 1, growth 0, yield 2. -/
theorem grahamValue_amended_witness :
    grahamValue (some 1) 0 2 =
      some (1 * ((8.5 : ℚ) + 2 * 0) * ((4.4 : ℚ) / 2)) :=
  (grahamValue_amended 1 0 2).1 (by norm_num)

/-- Claim C2 counterexample: with shares outstanding but no net-income data
the EPS series is empty — not a 7-entry replication of trailing EPS (which
the code never reads) — and both multi-year averages are NaN (absent), not
equal to any trailing EPS. -/
theorem epsFallback_counterexample :
    epsValues rMissingIncome = [] ∧
    (epsValues rMissingIncome).length ≠ 7 ∧
    eps5yrAvg (epsValues rMissingIncome) = none ∧
    eps7yrAvg (epsValues rMissingIncome) = none := by
  refine ⟨rfl, by norm_num [rMissingIncome, blankInfo, epsValues], rfl, rfl⟩

/-- Claim C2 amended: when the net-income series is absent or shares
outstanding are not strictly positive, the EPS series is empty and the 5-
and 7-year averages are NaN (modelled as absent); no fallback series is
built. -/
theorem epsValues_empty_of_missing (info : FinancialInfo)
    (h : info.netIncomeSeries = none ∨ info.sharesOutstanding ≤ 0) :
    epsValues info = [] ∧ eps5yrAvg (epsValues info) = none ∧
      eps7yrAvg (epsValues info) = none := by
  have he : epsValues info = [] := by
    rcases h with h | h
    · simp [epsValues, h]
    · rcases hn : info.netIncomeSeries with _ | nis
      · simp [epsValues, hn]
      · have hnp : ¬(0 < info.sharesOutstanding) := not_lt.mpr h
        by_cases hz : info.sharesOutstanding = 0
        · simp [epsValues, hn, hz]
        · simp [epsValues, hn, hz, hnp]
  exact ⟨he, by simp [he, eps5yrAvg, npMean, lastN], by simp [he, eps7yrAvg, npMean, lastN]⟩

/-- Witness for the amended C2 at a record with zero shares outstanding. -/
theorem epsValues_empty_of_missing_witness :
    epsValues rZeroShares = [] ∧ eps5yrAvg (epsValues rZeroShares) = none ∧
      eps7yrAvg (epsValues rZeroShares) = none :=
  epsValues_empty_of_missing rZeroShares
    (Or.inr (by norm_num [rZeroShares, blankInfo]))

/-- Claim C1 counterexample: the spec's criterion 6 (price present, 3-year
average positive, price ≤ 15 × 3-year average) and the code's criterion 6
disagree both ways: `rWindow` (3-year average 10, 5-year average 2, price
100) satisfies the spec's condition but fails the code's, and `rNoData`
(no price, all-negative EPS) fails the spec's condition but passes the
code's. -/
theorem priceCeilingCriterion_spec_counterexample :
    priceCeilingCriterionSpec rWindow = true ∧
    priceCeilingCriterion rWindow = false ∧
    priceCeilingCriterionSpec rNoData = false ∧
    priceCeilingCriterion rNoData = true := by
  refine ⟨?_, ?_, ?_, ?_⟩ <;>
    norm_num [priceCeilingCriterionSpec, priceCeilingCriterion, eps3yrAvgSpec,
      eps5yrAvg, epsValues, npMean, lastN, priceCeiling, Option.getD, rWindow,
      rNoData, blankInfo]

/-- Claim C1 amended: criterion 6 is true exactly when the current price
(0 when absent) is at most the price ceiling, which is 15 × the 5-year
average EPS when that average exists and is strictly positive and 0
otherwise — despite the "3Y" label, the 5-year average is used, and neither
price presence nor a positive average is required for the criterion to pass. -/
theorem priceCeilingCriterion_amended (info : FinancialInfo) :
    (priceCeilingCriterion info = true ↔
      info.currentPrice.getD 0 ≤ priceCeiling (eps5yrAvg (epsValues info))) ∧
    (∀ e, eps5yrAvg (epsValues info) = some e → 0 < e →
      priceCeiling (eps5yrAvg (epsValues info)) = 15 * e) ∧
    (∀ e, eps5yrAvg (epsValues info) = some e → e ≤ 0 →
      priceCeiling (eps5yrAvg (epsValues info)) = 0) ∧
    (eps5yrAvg (epsValues info) = none →
      priceCeiling (eps5yrAvg (epsValues info)) = 0) := by
  refine ⟨by simp [priceCeilingCriterion], ?_, ?_, ?_⟩
  · intro e he hpos
    rw [he]
    simp [priceCeiling, hpos]
  · intro e he hnp
    rw [he]
    simp [priceCeiling, not_lt.mpr hnp]
  · intro h
    rw [h]
    rfl

/-- Witness for the amended C1: the ceiling of `rWindow` is built from its
5-year average 2. -/
theorem priceCeilingCriterion_amended_witness :
    priceCeiling (eps5yrAvg (epsValues rWindow)) = 15 * 2 :=
  (priceCeilingCriterion_amended rWindow).2.1 2
    (by norm_num [eps5yrAvg, epsValues, npMean, lastN, rWindow, blankInfo])
    (by norm_num)

/-- Claim C4: the ranked table is a permutation of the input rows, sorted by
passed count descending and stable on ties: in the sorted tagged list any
two rows with equal passed count carry ascending position tags, i.e. retain
the order in which their tickers were first encountered (pandas `nargsort`
reverses values and indices before the ascending argsort and the indexer
after it, so the reversals cancel on ties); the empty input yields the
empty table, and two tickers with identical records come out in input
order. -/
theorem rankedTable_stable_sorted (rows : List ScreenResult) :
    (rankedTable rows).Perm rows ∧
    (rankedTable rows).Pairwise (fun a b => b.passedCount ≤ a.passedCount) ∧
    ((List.insertionSort keyLe rows.enum.reverse).reverse).Pairwise
      (fun a b => b.2.passedCount < a.2.passedCount ∨
        (a.2.passedCount = b.2.passedCount ∧ a.1 ≤ b.1)) ∧
    rankedTable [] = ([] : List ScreenResult) ∧
    (runScreening [("A", some blankInfo), ("B", some blankInfo)] (22 / 5)).map
      (fun r => r.ticker) = ["A", "B"] := by
  have hsorted : (List.insertionSort keyLe rows.enum.reverse).Sorted keyLe :=
    List.sorted_insertionSort keyLe rows.enum.reverse
  have hrev : ((List.insertionSort keyLe rows.enum.reverse).reverse).Pairwise
      (fun a b => keyLe b a) :=
    List.pairwise_reverse.mpr hsorted
  refine ⟨rankedTable_perm rows, ?_, ?_, rfl, ?_⟩
  · unfold rankedTable
    rw [List.pairwise_map]
    refine hrev.imp ?_
    intro a b hab
    unfold keyLe at hab
    omega
  · refine hrev.imp ?_
    intro a b hab
    unfold keyLe at hab
    omega
  · simp [runScreening, rankedTable, fetchRow, mkScreenResult, List.enum,
      List.enumFrom, List.insertionSort, List.orderedInsert, keyLe, passedCount,
      criteria, revenueCriterion, currentRatioCriterion, workingCapitalCriterion,
      dividendCriterion, positiveEps5Criterion, priceCeilingCriterion, pbCriterion,
      epsValues, lastN, eps5yrAvg, npMean, priceCeiling, Option.getD, blankInfo,
      epsGrowth, positiveEps, grahamValue]

/-- Claim C8: every failed fetch contributes no row to the ranked table and
raises nothing, while every successful fetch's row survives into the table:
the table's length is the number of successful fetches and it is a
permutation of exactly the successfully built rows. -/
theorem runScreening_drops_failures
    (fetches : List (String × Option FinancialInfo)) (y : ℚ) :
    (runScreening fetches y).length = fetches.countP (fun tf => tf.2.isSome) ∧
    (runScreening fetches y).Perm (fetches.filterMap (fetchRow y)) ∧
    (∀ t info, (t, some info) ∈ fetches →
      mkScreenResult t info y ∈ runScreening fetches y) := by
  have hperm := rankedTable_perm (fetches.filterMap (fetchRow y))
  refine ⟨?_, hperm, ?_⟩
  · unfold runScreening
    rw [hperm.length_eq, length_filterMap_fetchRow]
  · intro t info hmem
    have hm : mkScreenResult t info y ∈ fetches.filterMap (fetchRow y) :=
      List.mem_filterMap.mpr ⟨(t, some info), hmem, rfl⟩
    exact hperm.mem_iff.mpr hm

/-- Witness for C8: a batch of three tickers with one failing fetch yields a
table of length 2 that still contains the first surviving ticker's row. -/
theorem runScreening_drops_failures_witness :
    (runScreening [("A", some blankInfo), ("B", none), ("C", some blankInfo)]
      (22 / 5)).length = 2 ∧
    mkScreenResult "A" blankInfo (22 / 5) ∈
      runScreening [("A", some blankInfo), ("B", none), ("C", some blankInfo)]
        (22 / 5) := by
  constructor
  · rw [(runScreening_drops_failures
      [("A", some blankInfo), ("B", none), ("C", some blankInfo)] (22 / 5)).1]
    rfl
  · exact (runScreening_drops_failures
      [("A", some blankInfo), ("B", none), ("C", some blankInfo)] (22 / 5)).2.2
      "A" blankInfo (by simp)

end StockScreener
